import Mathlib

/-!
Verification of the retail footfall analyzer agent
(`src/retail-footfall-analyzer.py`) against its specification.

The embedding translates the Python source into Lean:
* langchain messages become the `Message` structure (role, content, and an
  optional `tool_calls` list — only AI messages carry the attribute, mirrored
  by `Option`);
* the underlying `ChatOpenAI.invoke` call, which may raise, is a parameter of
  type `List Message → Except String Message` (`Except.error e` models a
  raised exception whose `str` is `e`);
* the compiled langgraph `graph.invoke` is likewise a parameter of
  `analyze`;
* `os.environ` is an association list of strings;
* the JSON record built by the mock tool is a `JValue`; `json.dumps`
  serialization is not modelled since every claim concerns the record's
  fields;
* for the frame property (no in-place mutation of the caller's message list)
  Python lists are modelled as cells of a `Heap`, where the source's `+`
  operations allocate fresh cells.
-/

/-- Message roles of the langchain message classes used by the script:
`SystemMessage`, `HumanMessage`, the model's AI responses, and tool results. -/
inductive Role where
  | system
  | human
  | ai
  | tool
deriving DecidableEq, Repr

/-- A structured tool-invocation request carried by an AI message
(langchain `tool_calls` entry): tool name, argument payload, identifier. -/
structure ToolCall where
  name : String
  args : String
  id : String
deriving DecidableEq, Repr

/-- A conversation message. `tool_calls = none` models a message class
without the `tool_calls` attribute (System/Human/Tool messages);
`tool_calls = some tcs` models an AI message, whose attribute is a
(possibly empty) list. -/
structure Message where
  role : Role
  content : String
  tool_calls : Option (List ToolCall)
deriving DecidableEq, Repr

/-- `SystemMessage(content=...)` of langchain_core. -/
def SystemMessage (content : String) : Message :=
  { role := Role.system, content := content, tool_calls := none }

/-- `HumanMessage(content=...)` of langchain_core. -/
def HumanMessage (content : String) : Message :=
  { role := Role.human, content := content, tool_calls := none }

/-- An AI response message; the `tool_calls` attribute is always present,
holding the (possibly empty) list of requests. -/
def AIMessage (content : String) (tcs : List ToolCall) : Message :=
  { role := Role.ai, content := content, tool_calls := some tcs }

/-- `isinstance(msg, SystemMessage)` of the source, as a Boolean on roles. -/
def isSystemMsg (m : Message) : Bool :=
  m.role == Role.system

/-- langgraph's `END` sentinel, the string `"__end__"`. -/
def END : String := "__end__"

/-- `hasattr(last_message, 'tool_calls')`: the attribute exists exactly when
the optional field is populated. -/
def hasToolCallsAttr (m : Message) : Bool :=
  m.tool_calls.isSome

/-- Python truthiness of `last_message.tool_calls`: a present, non-empty
list is truthy; an absent attribute contributes `False` via the `and`. -/
def toolCallsTruthy (m : Message) : Bool :=
  match m.tool_calls with
  | some tcs => !tcs.isEmpty
  | none => false

/-- `_should_continue` (source lines 121-141): inspect the last message of
the state; return `'tools'` when `hasattr(last_message, 'tool_calls') and
last_message.tool_calls` is truthy, else `END`. Python's `messages[-1]` on
an empty list raises `IndexError`, modelled by `none`. -/
def should_continue (messages : List Message) : Option String :=
  match messages.getLast? with
  | none => none
  | some last =>
      if hasToolCallsAttr last && toolCallsTruthy last then some "tools"
      else some END

/-- The specification's notion that a message carries at least one
tool-invocation request. -/
def carriesToolRequest (m : Message) : Prop :=
  ∃ tcs, m.tool_calls = some tcs ∧ tcs ≠ []

/-- The system-prompt injection of `_call_model` (source lines 157-159):
`if not any(isinstance(msg, SystemMessage) for msg in messages):
messages = [SystemMessage(content=self.system_prompt)] + messages`. -/
def injectSystem (sys : String) (messages : List Message) : List Message :=
  if messages.any isSystemMsg then messages
  else SystemMessage sys :: messages

/-- The try/except around `self.llm.invoke(messages)` (source lines 162-169):
on success append the response, on any exception append
`HumanMessage(content=f"An error occurred: {str(e)}")`. -/
def modelStep (llm : List Message → Except String Message)
    (messages : List Message) : List Message :=
  match llm messages with
  | Except.ok response => messages ++ [response]
  | Except.error e => messages ++ [HumanMessage ("An error occurred: " ++ e)]

/-- `_call_model` (source lines 143-169): inject the system prompt when
absent, invoke the model, and return the extended message list. -/
def call_model (sys : String) (llm : List Message → Except String Message)
    (messages : List Message) : List Message :=
  modelStep llm (injectSystem sys messages)

/-- The dictionary returned by `analyze`: either the graph output
`{'messages': ...}` or the error record `{'error': str(e)}`. -/
inductive AnalyzeResult where
  | output (messages : List Message)
  | error (e : String)
deriving DecidableEq, Repr

/-- `analyze` (source lines 203-233): seed the conversation with one
`HumanMessage(content=query)`, run the compiled graph inside try/except, and
convert any escaping exception into `{'error': str(e)}`. The compiled
graph's `invoke` is the parameter `graphInvoke`. -/
def analyze (graphInvoke : List Message → Except String (List Message))
    (query : String) : AnalyzeResult :=
  match graphInvoke [HumanMessage query] with
  | Except.ok out => AnalyzeResult.output out
  | Except.error e => AnalyzeResult.error e

/-- C1: the loop-controller branch returns `'tools'` exactly when the last
message carries at least one tool-invocation request, and `END` when it
carries zero. -/
theorem c1_should_continue_branch (msgs : List Message) (last : Message)
    (h : msgs.getLast? = some last) :
    (should_continue msgs = some "tools" ↔ carriesToolRequest last) ∧
    (should_continue msgs = some END ↔ ¬ carriesToolRequest last) := by
  have hsc : should_continue msgs =
      (if hasToolCallsAttr last && toolCallsTruthy last then some "tools"
       else some END) := by
    unfold should_continue
    rw [h]
  have hne : ("tools" : String) ≠ END := by decide
  have hb : (hasToolCallsAttr last && toolCallsTruthy last) = true ↔
      carriesToolRequest last := by
    unfold hasToolCallsAttr toolCallsTruthy carriesToolRequest
    cases htc : last.tool_calls with
    | none => simp [htc]
    | some tcs =>
        cases tcs with
        | nil => simp [htc]
        | cons a t => simp [htc, List.isEmpty]
  constructor
  · constructor
    · intro hres
      rw [hsc] at hres
      by_cases hcond : (hasToolCallsAttr last && toolCallsTruthy last) = true
      · exact hb.mp hcond
      · rw [if_neg hcond] at hres
        exact absurd (Option.some.inj hres).symm hne
    · intro hreq
      rw [hsc, if_pos (hb.mpr hreq)]
  · constructor
    · intro hres hreq
      rw [hsc, if_pos (hb.mpr hreq)] at hres
      exact hne (Option.some.inj hres)
    · intro hreq
      rw [hsc, if_neg (fun hcond => hreq (hb.mp hcond))]

/-- Witness for C1 at a concrete state whose last message requests one tool
call. -/
theorem c1_should_continue_branch_witness :
    ([AIMessage "x" [⟨"retail_footprint_api", "q", "1"⟩]] :
        List Message).getLast? =
      some (AIMessage "x" [⟨"retail_footprint_api", "q", "1"⟩]) ∧
    (should_continue [AIMessage "x" [⟨"retail_footprint_api", "q", "1"⟩]] =
        some "tools" ↔
      carriesToolRequest (AIMessage "x" [⟨"retail_footprint_api", "q", "1"⟩])) ∧
    (should_continue [AIMessage "x" [⟨"retail_footprint_api", "q", "1"⟩]] =
        some END ↔
      ¬ carriesToolRequest
          (AIMessage "x" [⟨"retail_footprint_api", "q", "1"⟩])) := by
  refine ⟨rfl, ?_⟩
  exact c1_should_continue_branch _ _ rfl

/-- C2 counterexample: the claim says the error fallback is an
Assistant-role message, but `_call_model` (source line 169) appends a
`HumanMessage`. At the concrete always-failing model, the last message's
role is `human`, not `ai`. -/
theorem c2_counterexample :
    ¬ (∀ (llm : List Message → Except String Message) (conv : List Message)
          (e : String), (∀ msgs, llm msgs = Except.error e) →
        (call_model "prompt" llm conv).getLast?.map Message.role =
          some Role.ai) := by
  intro hclaim
  have hres := hclaim (fun _ => Except.error "boom") [HumanMessage "q"] "boom"
    (fun _ => rfl)
  exact absurd hres (by decide)

/-- C2 (amended): on every exception the Model Invoker does not propagate
it; it returns the (system-injected) conversation extended with a degraded
Human-role message whose content is the human-readable description
`"An error occurred: " ++ str(e)`. -/
theorem c2_error_containment (sys : String)
    (llm : List Message → Except String Message) (conv : List Message)
    (e : String) (hfail : llm (injectSystem sys conv) = Except.error e) :
    call_model sys llm conv =
      injectSystem sys conv ++ [HumanMessage ("An error occurred: " ++ e)] ∧
    (call_model sys llm conv).getLast? =
      some (HumanMessage ("An error occurred: " ++ e)) := by
  have heq : call_model sys llm conv =
      injectSystem sys conv ++ [HumanMessage ("An error occurred: " ++ e)] := by
    unfold call_model modelStep
    rw [hfail]
  exact ⟨heq, by rw [heq, List.getLast?_concat]⟩

/-- Witness for C2 (amended) at a concrete failing model. -/
theorem c2_error_containment_witness :
    call_model "p" (fun _ => Except.error "boom") [HumanMessage "q"] =
      injectSystem "p" [HumanMessage "q"] ++
        [HumanMessage ("An error occurred: " ++ "boom")] ∧
    (call_model "p" (fun _ => Except.error "boom")
        [HumanMessage "q"]).getLast? =
      some (HumanMessage ("An error occurred: " ++ "boom")) :=
  c2_error_containment "p" (fun _ => Except.error "boom") [HumanMessage "q"]
    "boom" rfl

/-- C3: `analyze` never propagates an exception of the internal graph
execution; when the graph raises, the caller receives the error record
`{'error': str(e)}`. -/
theorem c3_analyze_contains_failure
    (graphInvoke : List Message → Except String (List Message))
    (q e : String) (h : graphInvoke [HumanMessage q] = Except.error e) :
    analyze graphInvoke q = AnalyzeResult.error e := by
  unfold analyze
  rw [h]

/-- Witness for C3 at a concrete always-raising graph. -/
theorem c3_analyze_contains_failure_witness :
    analyze (fun _ => Except.error "graph failure") "any query" =
      AnalyzeResult.error "graph failure" :=
  c3_analyze_contains_failure (fun _ => Except.error "graph failure")
    "any query" "graph failure" rfl

/-- Helper: the appended message of `modelStep` is never a System message
when the model never returns one, so `_call_model` preserves the count of
System messages of its (injected) input. -/
theorem countP_call_model (sys : String)
    (llm : List Message → Except String Message) (conv : List Message)
    (hllm : ∀ msgs m, llm msgs = Except.ok m → isSystemMsg m = false) :
    (call_model sys llm conv).countP isSystemMsg =
      (injectSystem sys conv).countP isSystemMsg := by
  unfold call_model modelStep
  cases hm : llm (injectSystem sys conv) with
  | ok m =>
      simp [List.countP_append, List.countP_cons, hllm _ _ hm]
  | error e =>
      simp [List.countP_append, List.countP_cons]
      rfl

/-- Helper: injecting into a conversation without a System message puts
exactly one System message at the head. -/
theorem injectSystem_of_not_any (sys : String) (conv : List Message)
    (hconv : conv.any isSystemMsg = false) :
    injectSystem sys conv = SystemMessage sys :: conv := by
  unfold injectSystem
  rw [hconv]
  rfl

/-- C4: for a conversation with no System message, one `_call_model`
invocation yields a conversation headed by a System message and containing
exactly one; a second invocation does not add another (the injection is
idempotent), assuming the model itself never returns a System message. -/
theorem c4_system_injection_idempotent (sys : String)
    (llm : List Message → Except String Message) (conv : List Message)
    (hconv : conv.any isSystemMsg = false)
    (hllm : ∀ msgs m, llm msgs = Except.ok m → isSystemMsg m = false) :
    (call_model sys llm conv).head? = some (SystemMessage sys) ∧
    (call_model sys llm conv).countP isSystemMsg = 1 ∧
    (call_model sys llm (call_model sys llm conv)).countP isSystemMsg = 1 := by
  have hinj := injectSystem_of_not_any sys conv hconv
  have hzero : conv.countP isSystemMsg = 0 := by
    rw [List.countP_eq_zero]
    intro a ha
    exact (List.any_eq_false (p := isSystemMsg)).mp hconv a ha
  have hcount1 : (call_model sys llm conv).countP isSystemMsg = 1 := by
    rw [countP_call_model sys llm conv hllm, hinj, List.countP_cons, hzero]
    rfl
  refine ⟨?_, hcount1, ?_⟩
  · unfold call_model modelStep
    cases llm (injectSystem sys conv) with
    | ok m => rw [hinj]; rfl
    | error e => rw [hinj]; rfl
  · have hany : (call_model sys llm conv).any isSystemMsg = true := by
      by_contra hno
      have : (call_model sys llm conv).countP isSystemMsg = 0 := by
        rw [List.countP_eq_zero]
        intro a ha
        exact (List.any_eq_false (p := isSystemMsg)).mp
          (Bool.eq_false_iff.mpr hno) a ha
      omega
    rw [countP_call_model sys llm _ hllm]
    unfold injectSystem
    rw [hany]
    exact hcount1

/-- Witness for C4 at a concrete conversation and a model that answers with
a plain AI message. -/
theorem c4_system_injection_idempotent_witness :
    ([HumanMessage "q"] : List Message).any isSystemMsg = false ∧
    ((call_model "p" (fun _ => Except.ok (AIMessage "hi" []))
        [HumanMessage "q"]).head? = some (SystemMessage "p") ∧
      (call_model "p" (fun _ => Except.ok (AIMessage "hi" []))
        [HumanMessage "q"]).countP isSystemMsg = 1 ∧
      (call_model "p" (fun _ => Except.ok (AIMessage "hi" []))
        (call_model "p" (fun _ => Except.ok (AIMessage "hi" []))
          [HumanMessage "q"])).countP isSystemMsg = 1) :=
  ⟨by decide,
    c4_system_injection_idempotent "p" (fun _ => Except.ok (AIMessage "hi" []))
      [HumanMessage "q"] (by decide)
      (fun _ m hm => by injection hm with h; subst h; rfl)⟩

/-- `needle` occurs at the start of the second list. -/
def leadsChars : List Char → List Char → Bool
  | [], _ => true
  | _ :: _, [] => false
  | c :: cs, d :: ds => c == d && leadsChars cs ds

/-- Substring occurrence on character lists, mirroring Python's `in` on
strings. -/
def containsChars : List Char → List Char → Bool
  | [], needle => needle.isEmpty
  | c :: rest, needle => leadsChars needle (c :: rest) || containsChars rest needle

/-- Python's `needle in s.lower()` for an ASCII needle: lower-case the
characters of `s`, then look for the needle as a substring. -/
def containsLower (s needle : String) : Bool :=
  containsChars (s.toList.map Char.toLower) needle.toList

/-- JSON values, the shape of the records the mock tool passes to
`json.dumps`. -/
inductive JValue where
  | str (s : String)
  | num (n : Nat)
  | arr (xs : List JValue)
  | obj (fields : List (String × JValue))

/-- Field lookup on a JSON object. -/
def JValue.getField (j : JValue) (k : String) : Option JValue :=
  match j with
  | JValue.obj fields => fields.lookup k
  | _ => none

/-- Field lookup projected to a string value. -/
def JValue.getStrField (j : JValue) (k : String) : Option String :=
  match j.getField k with
  | some (JValue.str s) => some s
  | _ => none

/-- Field lookup projected to a numeric value. -/
def JValue.getNumField (j : JValue) (k : String) : Option Nat :=
  match j.getField k with
  | some (JValue.num n) => some n
  | _ => none

/-- `_query_retail_footprint_api` (source lines 61-119): match recognized
location substrings in the lowered query — `"marathahalli"` first, then
`"pune"` — and return the corresponding mock record, or the error record
otherwise. The Python function returns `json.dumps` of these records; the
serialization is not modelled, the record is. -/
def query_retail_footprint_api (query : String) : JValue :=
  if containsLower query "marathahalli" then
    JValue.obj
      [("location", JValue.str "Marathahalli, Bangalore"),
       ("peak_hours", JValue.obj
         [("weekdays", JValue.arr [JValue.str "6PM-8PM"]),
          ("weekends", JValue.arr
            [JValue.str "11AM-2PM", JValue.str "5PM-9PM"])]),
       ("footfall_data", JValue.obj
         [("average_daily", JValue.num 1250),
          ("highest_hour", JValue.str "6PM-7PM"),
          ("busiest_day", JValue.str "Saturday")]),
       ("competitor_insights", JValue.obj
         [("density", JValue.str "High"),
          ("major_players", JValue.arr
            [JValue.str "Central", JValue.str "Lifestyle", JValue.str "Max"]),
          ("comparative_traffic",
            JValue.str "25% higher during evening hours")])]
  else if containsLower query "pune" then
    JValue.obj
      [("location", JValue.str "Pune, Maharashtra"),
       ("peak_hours", JValue.obj
         [("weekdays", JValue.arr [JValue.str "5PM-7PM"]),
          ("weekends", JValue.arr
            [JValue.str "12PM-3PM", JValue.str "6PM-8PM"])]),
       ("footfall_data", JValue.obj
         [("average_daily", JValue.num 980),
          ("highest_hour", JValue.str "6PM-7PM"),
          ("busiest_day", JValue.str "Sunday")]),
       ("competitor_insights", JValue.obj
         [("density", JValue.str "Medium"),
          ("major_players", JValue.arr
            [JValue.str "Westside", JValue.str "Shoppers Stop",
             JValue.str "Pantaloons"]),
          ("comparative_traffic",
            JValue.str "15% higher during weekend evenings")])]
  else
    JValue.obj [("error", JValue.str "No specific data available for this location")]

/-- C5: any query containing `"marathahalli"` case-insensitively gets the
Marathahalli record: location `"Marathahalli, Bangalore"` and
`footfall_data.average_daily = 1250`. -/
theorem c5_marathahalli_record (q : String)
    (h : containsLower q "marathahalli" = true) :
    (query_retail_footprint_api q).getStrField "location" =
      some "Marathahalli, Bangalore" ∧
    ((query_retail_footprint_api q).getField "footfall_data").bind
      (fun fd => fd.getNumField "average_daily") = some 1250 := by
  unfold query_retail_footprint_api
  rw [if_pos h]
  exact ⟨rfl, rfl⟩

/-- Witness for C5 at the specification's example query. -/
theorem c5_marathahalli_record_witness :
    containsLower
        "Analyze the footfall patterns for retail stores in Marathahalli, Bangalore"
        "marathahalli" = true ∧
    ((query_retail_footprint_api
        "Analyze the footfall patterns for retail stores in Marathahalli, Bangalore").getStrField
        "location" = some "Marathahalli, Bangalore" ∧
      ((query_retail_footprint_api
          "Analyze the footfall patterns for retail stores in Marathahalli, Bangalore").getField
          "footfall_data").bind (fun fd => fd.getNumField "average_daily") =
        some 1250) :=
  ⟨by decide,
    c5_marathahalli_record
      "Analyze the footfall patterns for retail stores in Marathahalli, Bangalore"
      (by decide)⟩

/-- C6 counterexample: the claim quantifies over every query containing
`"pune"`, but the source checks `"marathahalli"` first; the query
`"pune marathahalli"` contains `"pune"` yet yields the Marathahalli record,
whose `busiest_day` is `"Saturday"`, not `"Sunday"`. -/
theorem c6_counterexample :
    ¬ (∀ q : String, containsLower q "pune" = true →
        ((query_retail_footprint_api q).getField "footfall_data").bind
          (fun fd => fd.getStrField "busiest_day") = some "Sunday") := by
  intro hclaim
  have hres := hclaim "pune marathahalli" (by decide)
  have hsat : ((query_retail_footprint_api "pune marathahalli").getField
      "footfall_data").bind (fun fd => fd.getStrField "busiest_day") =
      some "Saturday" := by decide
  rw [hsat] at hres
  exact absurd hres (by decide)

/-- C6 (amended): any query containing `"pune"` case-insensitively but not
`"marathahalli"` gets the Pune record, whose `footfall_data.busiest_day` is
`"Sunday"`. -/
theorem c6_pune_sunday (q : String)
    (hp : containsLower q "pune" = true)
    (hm : containsLower q "marathahalli" = false) :
    ((query_retail_footprint_api q).getField "footfall_data").bind
      (fun fd => fd.getStrField "busiest_day") = some "Sunday" := by
  unfold query_retail_footprint_api
  rw [if_neg (by simp [hm]), if_pos hp]
  rfl

/-- Witness for C6 (amended) at a concrete Pune query. -/
theorem c6_pune_sunday_witness :
    containsLower "Footfall for stores in Pune please" "pune" = true ∧
    containsLower "Footfall for stores in Pune please" "marathahalli" = false ∧
    ((query_retail_footprint_api
        "Footfall for stores in Pune please").getField "footfall_data").bind
      (fun fd => fd.getStrField "busiest_day") = some "Sunday" :=
  ⟨by decide, by decide,
    c6_pune_sunday "Footfall for stores in Pune please" (by decide) (by decide)⟩

/-- C7: a query containing neither recognized location substring gets the
error record, a JSON object whose only field is the error message; the
handler is total (never raises). -/
theorem c7_unknown_location_error (q : String)
    (hm : containsLower q "marathahalli" = false)
    (hp : containsLower q "pune" = false) :
    query_retail_footprint_api q =
      JValue.obj
        [("error", JValue.str "No specific data available for this location")] := by
  unfold query_retail_footprint_api
  rw [if_neg (by simp [hm]), if_neg (by simp [hp])]

/-- Witness for C7 at a concrete unknown-location query. -/
theorem c7_unknown_location_error_witness :
    containsLower "Footfall for stores in Delhi" "marathahalli" = false ∧
    containsLower "Footfall for stores in Delhi" "pune" = false ∧
    query_retail_footprint_api "Footfall for stores in Delhi" =
      JValue.obj
        [("error", JValue.str "No specific data available for this location")] :=
  ⟨by decide, by decide,
    c7_unknown_location_error "Footfall for stores in Delhi"
      (by decide) (by decide)⟩

/-- The process environment `os.environ`, as an association list read via
its first matching entry. -/
abbrev Env := List (String × String)

/-- `os.environ[k] = v`: the assignment replaces any previous binding of
`k`. -/
def envSet (env : Env) (k v : String) : Env :=
  (k, v) :: env.filter (fun p => p.1 != k)

/-- Python truthiness of the `openai_api_key` argument: `None` and the
empty string are falsy. -/
def keyTruthy : Option String → Bool
  | none => false
  | some s => !s.isEmpty

/-- The error text raised by the constructor when no key is available. -/
def missingKeyError : String :=
  "OpenAI API key not found. Please provide it or set the OPENAI_API_KEY environment variable."

/-- The availability check of `__init__` (source lines 43-44): raise
`ValueError` when `"OPENAI_API_KEY" not in os.environ`, else construction
proceeds with the environment. -/
def checkKeyPresent (env : Env) : Except String Env :=
  if (env.lookup "OPENAI_API_KEY").isSome then Except.ok env
  else Except.error missingKeyError

/-- The credential handling of `__init__` (source lines 38-44): when the
argument is truthy, write it into `os.environ["OPENAI_API_KEY"]`, then
check availability. -/
def init_analyzer (openai_api_key : Option String) (env : Env) :
    Except String Env :=
  checkKeyPresent
    (match openai_api_key with
     | some s => if s.isEmpty then env else envSet env "OPENAI_API_KEY" s
     | none => env)

/-- Helper: assignment into the environment is read back by lookup. -/
theorem lookup_envSet (env : Env) (k v : String) :
    (envSet env k v).lookup k = some v := by
  unfold envSet
  simp [List.lookup]

/-- C8: construction fails fast exactly on a missing credential — with no
explicit key and no environment entry the constructor raises the
configuration error; with a (non-empty) explicit key or an environment
entry it does not raise for this reason. -/
theorem c8_fail_fast (openai_api_key : Option String) (env : Env) :
    (openai_api_key = none → env.lookup "OPENAI_API_KEY" = none →
      init_analyzer openai_api_key env = Except.error missingKeyError) ∧
    (keyTruthy openai_api_key = true ∨
        (env.lookup "OPENAI_API_KEY").isSome = true →
      ∃ env2, init_analyzer openai_api_key env = Except.ok env2) := by
  constructor
  · intro hk henv
    subst hk
    simp [init_analyzer, checkKeyPresent, henv]
  · intro havail
    cases hk : openai_api_key with
    | none =>
        subst hk
        cases havail with
        | inl htruthy => exact absurd htruthy (by decide)
        | inr henv =>
            exact ⟨env, by simp [init_analyzer, checkKeyPresent, henv]⟩
    | some s =>
        subst hk
        by_cases hs : s.isEmpty
        · cases havail with
          | inl htruthy =>
              simp [keyTruthy, hs] at htruthy
          | inr henv =>
              exact ⟨env, by simp [init_analyzer, checkKeyPresent, hs, henv]⟩
        · exact ⟨envSet env "OPENAI_API_KEY" s,
            by simp [init_analyzer, checkKeyPresent, hs, lookup_envSet]⟩

/-- Witness for C8: the empty environment with no key raises; an explicit
key succeeds. -/
theorem c8_fail_fast_witness :
    init_analyzer none [] = Except.error missingKeyError ∧
    (∃ env2, init_analyzer (some "sk-test") [] = Except.ok env2) :=
  ⟨(c8_fail_fast none []).1 rfl rfl,
    (c8_fail_fast (some "sk-test") []).2 (Or.inl (by decide))⟩

/-- C10: constructing with an explicitly supplied (truthy) credential
writes it into the process environment, replacing any value already there;
the updated environment is the one the rest of the process sees. -/
theorem c10_env_overwrite (s : String) (env : Env) (hs : s.isEmpty = false) :
    init_analyzer (some s) env =
      Except.ok (envSet env "OPENAI_API_KEY" s) ∧
    (envSet env "OPENAI_API_KEY" s).lookup "OPENAI_API_KEY" = some s := by
  refine ⟨?_, lookup_envSet env "OPENAI_API_KEY" s⟩
  simp [init_analyzer, checkKeyPresent, hs, lookup_envSet]

/-- Witness for C10: the explicit key replaces a pre-existing environment
value. -/
theorem c10_env_overwrite_witness :
    init_analyzer (some "sk-new") [("OPENAI_API_KEY", "sk-old")] =
      Except.ok (envSet [("OPENAI_API_KEY", "sk-old")] "OPENAI_API_KEY"
        "sk-new") ∧
    (envSet [("OPENAI_API_KEY", "sk-old")] "OPENAI_API_KEY"
        "sk-new").lookup "OPENAI_API_KEY" = some "sk-new" :=
  c10_env_overwrite "sk-new" [("OPENAI_API_KEY", "sk-old")] (by decide)

/-- A store of Python list objects: each cell holds one message list, a
reference is an index. Python's list `+` allocates a fresh cell; in-place
operations (which the source never uses on the state's list) would write an
existing cell. -/
structure Heap where
  cells : List (List Message)

/-- Allocate a fresh list object holding `v`; returns the new heap and the
reference of the new cell. -/
def Heap.alloc (h : Heap) (v : List Message) : Heap × Nat :=
  (⟨h.cells ++ [v]⟩, h.cells.length)

/-- Dereference: the contents of cell `r`. -/
def Heap.get (h : Heap) (r : Nat) : List Message :=
  (h.cells.get? r).getD []

/-- Helper: allocation leaves every existing cell unchanged. -/
theorem Heap.get_alloc_old (h : Heap) (v : List Message) (r : Nat)
    (hr : r < h.cells.length) :
    (h.alloc v).1.get r = h.get r := by
  unfold Heap.alloc Heap.get
  simp [List.getElem?_append_left hr]

/-- Helper: dereferencing a fresh allocation yields its contents. -/
theorem Heap.get_alloc_new (h : Heap) (v : List Message) :
    (h.alloc v).1.get (h.alloc v).2 = v := by
  unfold Heap.alloc Heap.get
  simp [List.getElem?_concat_length]

/-- `_call_model` at the level of Python list objects: read the state's
list through its reference, rebind `messages` to a freshly allocated
`[SystemMessage(...)] + messages` when injection fires, and return a
freshly allocated `messages + [response]`; no existing cell is written. -/
def call_model_heap (sys : String)
    (llm : List Message → Except String Message) (h : Heap) (r : Nat) :
    Heap × Nat :=
  let hr1 := if (h.get r).any isSystemMsg then (h, r)
             else h.alloc (SystemMessage sys :: h.get r)
  hr1.1.alloc (modelStep llm (hr1.1.get hr1.2))

/-- C9: `_call_model` leaves the caller's message list unchanged — the cell
the caller holds a reference to has the same contents after the call — and
the returned reference holds exactly the pure `call_model` result. -/
theorem c9_no_input_mutation (sys : String)
    (llm : List Message → Except String Message) (h : Heap) (r : Nat)
    (hr : r < h.cells.length) :
    (call_model_heap sys llm h r).1.get r = h.get r ∧
    (call_model_heap sys llm h r).1.get (call_model_heap sys llm h r).2 =
      call_model sys llm (h.get r) := by
  unfold call_model_heap call_model injectSystem
  by_cases hany : (h.get r).any isSystemMsg
  · rw [if_pos hany, if_pos hany]
    exact ⟨Heap.get_alloc_old h _ r hr, Heap.get_alloc_new h _⟩
  · rw [if_neg hany, if_neg hany]
    have h1 := Heap.get_alloc_new h (SystemMessage sys :: h.get r)
    have hr1 : r < (Heap.alloc h (SystemMessage sys :: h.get r)).1.cells.length := by
      unfold Heap.alloc
      simp
      omega
    constructor
    · rw [Heap.get_alloc_old _ _ r hr1, Heap.get_alloc_old h _ r hr]
    · rw [Heap.get_alloc_new, h1]

/-- Witness for C9 at a concrete heap holding one single-message list. -/
theorem c9_no_input_mutation_witness :
    0 < (Heap.mk [[HumanMessage "q"]]).cells.length ∧
    ((call_model_heap "p" (fun _ => Except.ok (AIMessage "hi" []))
        (Heap.mk [[HumanMessage "q"]]) 0).1.get 0 =
      (Heap.mk [[HumanMessage "q"]]).get 0 ∧
    (call_model_heap "p" (fun _ => Except.ok (AIMessage "hi" []))
        (Heap.mk [[HumanMessage "q"]]) 0).1.get
        (call_model_heap "p" (fun _ => Except.ok (AIMessage "hi" []))
          (Heap.mk [[HumanMessage "q"]]) 0).2 =
      call_model "p" (fun _ => Except.ok (AIMessage "hi" []))
        ((Heap.mk [[HumanMessage "q"]]).get 0)) :=
  ⟨by decide,
    c9_no_input_mutation "p" (fun _ => Except.ok (AIMessage "hi" []))
      (Heap.mk [[HumanMessage "q"]]) 0 (by decide)⟩
